import Mathlib

/-
  Verification of the boom text-reporting engine (src/boom/report.py).

  This file is a shallow embedding of the `BoomReport` class and its helper
  classes into Lean.  Python's mutable object state is passed explicitly: every
  method of `BoomReport` becomes a function from the report state (and its
  arguments) to `Except PyErr` of the updated state.  Python exceptions are
  modelled by the `PyErr` type; output written to `opts.report_file` and text
  printed to stdout are carried in the report state as the `written` and
  `printed` line buffers.  An exception (an `Except.error` result) discards the
  buffers; this is only relied upon where no output precedes the error in the
  source.
-/

deriving instance DecidableEq for Except

/-- The kinds of Python exception the embedded code can raise. -/
inductive PyErr
  | valueError (msg : String)
  | attributeError (msg : String)
  | nameError (msg : String)
  | typeError (msg : String)
  | indexError (msg : String)
  | keyError (msg : String)
deriving DecidableEq, Repr

/-- A dynamic value as stored in `BoomField.sort_value`: the report functions in
the source store either a Python `int` or a Python `str` there. -/
inductive Value
  | num (n : Int)
  | str (s : String)
deriving DecidableEq, Repr

/-- Python truthiness for the values that can reach `set_value`'s
`sort_value if sort_value else report_string`: `0` and `""` are falsy. -/
def Value.pyTruthy : Value → Bool
  | .num n => n != 0
  | .str s => s != ""

/-- Python `==` on the optional dynamic values (`None == None` is `True`,
`None == x` is `False`, and an `int` never equals a `str`). -/
def pyEqO : Option Value → Option Value → Bool
  | none, none => true
  | some (.num a), some (.num b) => a == b
  | some (.str a), some (.str b) => a == b
  | _, _ => false

/-- Python `>` on optional dynamic values: numeric and string comparisons are
defined, every mixed or `None` comparison raises `TypeError` (Python 3). -/
def pyGtO : Option Value → Option Value → Except PyErr Bool
  | some (.num a), some (.num b) => .ok (decide (b < a))
  | some (.str a), some (.str b) => .ok (decide (b < a))
  | _, _ => .error (.typeError "unorderable types")

/-- Python `<` on optional dynamic values. -/
def pyLtO : Option Value → Option Value → Except PyErr Bool
  | some (.num a), some (.num b) => .ok (decide (a < b))
  | some (.str a), some (.str b) => .ok (decide (a < b))
  | _, _ => .error (.typeError "unorderable types")

/-- Python list subscript `l[i]` (reads). -/
def pyGet (l : List α) (i : Nat) : Except PyErr α :=
  match l.get? i with
  | some a => .ok a
  | none => .error (.indexError "list index out of range")

/-- Python list subscript assignment `l[i] = a`. -/
def pySetE (l : List α) (i : Nat) (a : α) : Except PyErr (List α) :=
  if i < l.length then .ok (l.set i a) else
    .error (.indexError "list assignment index out of range")

/-- Python `len` of a value that may be `None`. -/
def pyLenStr : Option String → Except PyErr Nat
  | some s => .ok s.length
  | none => .error (.typeError "object of type NoneType has no len()")

/-- Python string slicing `s[:n]` (by characters).  Defined through the
character list so that the kernel can evaluate it (the core `String.take`
goes through byte positions). -/
def pyTake (s : String) (n : Nat) : String :=
  String.mk (s.data.take n)

/-- Python `s.split(',')`, by structural recursion over the characters (the
core `String.splitOn` is defined by well-founded recursion, which the kernel
cannot evaluate).  `"".split(',') = [""]` and consecutive commas yield empty
tokens, as in Python. -/
def pySplitCommaGo : List Char → List Char → List String
  | [], cur => [String.mk cur.reverse]
  | c :: rest, cur =>
    if c == ',' then String.mk cur.reverse :: pySplitCommaGo rest []
    else pySplitCommaGo rest (c :: cur)

/-- Python `s.split(',')`. -/
def pySplitComma (s : String) : List String :=
  pySplitCommaGo s.data []

/-- Python `",".join(l)`. -/
def pyJoinComma : List String → String
  | [] => ""
  | [x] => x
  | x :: rest => x ++ "," ++ pyJoinComma rest

/-- Python `s.startswith(c)` for a one-character needle. -/
def pyStartsWith1 (c : Char) (s : String) : Bool :=
  match s.data with
  | d :: _ => d == c
  | [] => false

/-- Python `s[1:]`. -/
def pyDrop1 (s : String) : String :=
  match s.data with
  | _ :: rest => String.mk rest
  | [] => ""

/-- `"%-*.*s" % (w, w, s)`: truncate to `w` characters, then left-justify. -/
def pyFormatLeft (w : Nat) (s : String) : String :=
  let t := pyTake s w
  t ++ String.mk (List.replicate (w - t.length) ' ')

/-- `"%*.*s" % (w, w, s)`: truncate to `w` characters, then right-justify. -/
def pyFormatRight (w : Nat) (s : String) : String :=
  let t := pyTake s w
  String.mk (List.replicate (w - t.length) ' ') ++ t

/-- `%s`-conversion of an optional string: Python formats `None` as "None". -/
def pyStrOf : Option String → String
  | some s => s
  | none => "None"

-- Module constants of boom/report.py

def REP_NUM := "num"
def REP_STR := "str"
def REP_SHA := "sha"

/-- Field data types (`_dtypes = [REP_NUM, REP_STR, REP_SHA]`); the source keys
them by the strings above, the embedding uses an enumeration. -/
inductive Dtype
  | num
  | str
  | sha
deriving DecidableEq, Repr

/-- Field alignment (`ALIGN_LEFT` / `ALIGN_RIGHT`). -/
inductive Align
  | left
  | right
deriving DecidableEq, Repr

/-- Sort direction (`ASCENDING` / `DESCENDING`). -/
inductive SortDir
  | ascending
  | descending
deriving DecidableEq, Repr

def _default_columns : Nat := 80
def _default_width : Nat := 8
def STANDARD_QUOTE : String := "'"
def STANDARD_PAIR : String := "="
def MIN_SHA_WIDTH : Nat := 7
def BR_SPECIAL : Nat := 0x80000000
def _special_field_help_name : String := "help"

/-- `BoomReportOpts`: options controlling formatting and output.  The
`report_file` attribute is modelled by the `written` buffer of the report
state; `field_name_prefix` is renamed `field_name_pfx`. -/
structure BoomReportOpts where
  columns : Nat := _default_columns
  headings : Bool := true
  buffered : Bool := true
  separator : String := " "
  field_name_pfx : String := ""
  unquoted : Bool := true
  aligned : Bool := true
  columns_as_rows : Bool := false
deriving Repr

/-- `BoomReportObjType`: a type of object to be reported on.  `ρ` is the type
of the domain objects fed to the report; Python's dynamic typing is recovered
by instantiating `ρ` with a sum of the needed types.  The `data_fn` may return
`None` (modelled by `Option`).  The source attribute `prefix` is renamed
`pfx`. -/
structure BoomReportObjType (ρ : Type) where
  objtype : Nat
  desc : String
  pfx : String
  data_fn : ρ → Option ρ

/-- `BoomField`: one column value for one row.  `props_ref` is the index of the
owning `BoomFieldProperties` entry in the report's `field_properties` list,
modelling the `_props` object reference of the source. -/
structure BoomField where
  props_ref : Nat
  report_string : Option String := none
  sort_value : Option Value := none
deriving DecidableEq, Repr

/-- `BoomFieldType`: a catalog entry.  `report_fn` receives the field cell and
the extracted data and returns the updated cell (Python mutates the cell in
place); it may raise.  `align` is always set after `BoomFieldType.__init__`
(defaulted from the dtype), so it is not optional here. -/
structure BoomFieldType (ρ : Type) where
  objtype : Nat
  name : String
  head : String
  desc : String
  width : Nat
  dtype : Dtype
  report_fn : BoomField → ρ → Except PyErr BoomField
  align : Align

/-- `BoomFieldProperties`: per-report mutable state for one selected field.
`objtype` holds the resolved `BoomReportObjType` (the source stores the object
itself).  The unused `compact_one`/`compacted` flags are kept for fidelity. -/
structure BoomFieldProperties (ρ : Type) where
  field_num : Nat
  initial_width : Nat := 0
  width : Nat := 0
  objtype : BoomReportObjType ρ
  dtype : Dtype
  align : Option Align := none
  hidden : Bool := false
  implicit : Bool := false
  sort_key : Bool := false
  sort_dir : Option SortDir := none
  compact_one : Bool := false
  compacted : Bool := false
  sort_posn : Option Nat := none

/-- `BoomRow`: one data row.  `sort_fields` is `None` until (and unless)
sorting is required; its slots start as the `-1` placeholder (modelled by
`none`) and are filled with field references by `__recalculate_fields`. -/
structure BoomRow where
  fields : List BoomField := []
  sort_fields : Option (List (Option BoomField)) := none
deriving DecidableEq, Repr

-- BoomField methods (src/boom/report.py lines 256-299)

namespace BoomField

/-- `BoomField.set_value`: store the rendered string and the raw sort value.
The source's `sort_value if sort_value else report_string` falls back to the
rendered string whenever the supplied sort value is Python-falsy (`None`, `0`,
`""`). -/
def set_value (f : BoomField) (report_string : Option String)
    (sort_value : Option Value := none) : Except PyErr BoomField :=
  match report_string with
  | none => .error (.valueError "No value assigned to field.")
  | some rs =>
    let sv : Value :=
      match sort_value with
      | some v => if v.pyTruthy then v else .str rs
      | none => .str rs
    .ok { f with report_string := some rs, sort_value := some sv }

/-- `BoomField.report_str`. -/
def report_str (f : BoomField) (value : String) : Except PyErr BoomField :=
  f.set_value (some value) (some (.str value))

/-- `BoomField.report_sha`. -/
def report_sha (f : BoomField) (value : String) : Except PyErr BoomField :=
  f.set_value (some value) (some (.str value))

/-- `BoomField.report_num`: renders `str(value)` and passes the numeric value
as the sort value. -/
def report_num (f : BoomField) (value : Int) : Except PyErr BoomField :=
  f.set_value (some (toString value)) (some (.num value))

end BoomField

-- Implicit report fields and types (src/boom/report.py lines 324-353)

/-- `__no_report_fn`: does nothing and returns `None`, leaving the field cell
unmodified. -/
def __no_report_fn {ρ : Type} (f : BoomField) (_d : ρ) : Except PyErr BoomField :=
  .ok f

/-- `_implicit_special_report_types`: the one reserved object type, whose
`__none_returning_fn` data function always returns `None`. -/
def implicit_special_report_types (ρ : Type) : List (BoomReportObjType ρ) :=
  [{ objtype := BR_SPECIAL, desc := "Special", pfx := "special_",
     data_fn := fun _ => none }]

/-- `_implicit_special_report_fields`: the single "help" pseudo-field
(`BoomFieldType(BR_SPECIAL, "help", "Help", "Show help", 8, REP_STR,
__no_report_fn)`; a REP_STR field with no explicit alignment defaults to
left). -/
def implicit_special_report_fields (ρ : Type) : List (BoomFieldType ρ) :=
  [{ objtype := BR_SPECIAL, name := _special_field_help_name, head := "Help",
     desc := "Show help", width := 8, dtype := .str,
     report_fn := __no_report_fn, align := .left }]

/-- The Python-sort model used by `BoomReport._sort_rows`: a stable insertion.
`x` is inserted after every element `y` with `le y x` and before the first
element with `¬ le y x`, which is exactly the stable placement contract of
CPython's `list.sort`. -/
def stableInsert (le : α → α → Bool) (x : α) : List α → List α
  | [] => [x]
  | y :: ys => if le y x then y :: stableInsert le x ys else x :: y :: ys

/-- Insert the elements of the first list, left to right, into the sorted
accumulator. -/
def stableSortGo (le : α → α → Bool) : List α → List α → List α
  | [], acc => acc
  | x :: xs, acc => stableSortGo le xs (stableInsert le x acc)

/-- Stable sort of a list: the model of Python's `list.sort(key=...)`.  For a
comparator that is a total preorder this is the unique stable sorted
permutation, which is what CPython guarantees. -/
def stableSort (le : α → α → Bool) (l : List α) : List α :=
  stableSortGo le l []

/-- The `BoomReport` object state.  `written` models everything written to
`opts.report_file`, `printed` models lines printed to stdout; `priv` is the
constructor's `private` argument (stored as `self._private`). -/
structure BoomReport (ρ : Type) where
  report_types : Nat := 0
  fields : List (BoomFieldType ρ) := []
  types : List (BoomReportObjType ρ) := []
  rows : List BoomRow := []
  keys_count : Nat := 0
  field_properties : List (BoomFieldProperties ρ) := []
  header_written : Bool := false
  field_calc_needed : Bool := true
  sort_required : Bool := false
  already_reported : Bool := false
  priv : Option ρ := none
  opts : BoomReportOpts := {}
  printed : List String := []
  written : List String := []

namespace BoomReport

variable {ρ : Type}

/-- Append one stdout line (`print`). -/
def pyPrint (s : BoomReport ρ) (line : String) : BoomReport ρ :=
  { s with printed := s.printed ++ [line] }

/-- Append one `opts.report_file.write` payload. -/
def pyWrite (s : BoomReport ρ) (text : String) : BoomReport ρ :=
  { s with written := s.written ++ [text] }

/-- `BoomReport.__help_requested`: scan the field properties for an implicit
entry whose catalog name is the reserved help name, returning at the first
hit (modelling the early `return True`). -/
def help_requested_go : List (BoomFieldProperties ρ) → Except PyErr Bool
  | [] => .ok false
  | fp :: rest =>
    if fp.implicit then do
      let ft ← pyGet (implicit_special_report_fields ρ) fp.field_num
      if ft.name == _special_field_help_name then .ok true
      else help_requested_go rest
    else help_requested_go rest

/-- `BoomReport.__help_requested`. -/
def help_requested (s : BoomReport ρ) : Except PyErr Bool :=
  help_requested_go s.field_properties

/-- `BoomReport.__display_fields`: the body's first statement,
`name_len = self.__get_longest_field_name_len(fields)`, reads the name
`fields`, which is bound in no enclosing Python scope (the parameter the
docstring describes was removed while the body still uses it, and no module
global or builtin of that name exists), so every call raises `NameError`
before producing any output. -/
def display_fields (_s : BoomReport ρ) (_display_field_types : Bool) :
    Except PyErr (BoomReport ρ) :=
  .error (.nameError "name 'fields' is not defined")

/-- `BoomReport.__find_type`: resolve a numeric type tag against the implicit
types and then the caller types. -/
def find_type (s : BoomReport ρ) (report_type : Nat) :
    Except PyErr (BoomReportObjType ρ) :=
  match (implicit_special_report_types ρ).find? (fun t => t.objtype == report_type) with
  | some t => .ok t
  | none =>
    match s.types.find? (fun t => t.objtype == report_type) with
    | some t => .ok t
    | none => .error (.valueError ("Unknown report object type: " ++ toString report_type))

/-- `BoomReport.__copy_field`: build the `BoomFieldProperties` for field
`field_num`.  Note that the source reads `self._fields[field_num]` for the
width, objtype, dtype and alignment even when `implicit` is true. -/
def copy_field (s : BoomReport ρ) (field_num : Nat) (implicit : Bool) :
    Except PyErr (BoomFieldProperties ρ) := do
  let ft ← pyGet s.fields field_num
  let ot ← find_type s ft.objtype
  .ok { field_num := field_num,
        initial_width := ft.width, width := ft.width,
        implicit := implicit,
        objtype := ot,
        dtype := ft.dtype,
        align := some ft.align }

/-- `BoomReport.__add_field`: create the properties and insert them (hidden
fields at the front, others at the back).  The Python method has no `return`
statement, so its value is `None`: a caller that binds its result (see
`add_sort_key`) receives `None`. -/
def add_field (s : BoomReport ρ) (field_num : Nat) (implicit : Bool) :
    Except PyErr (BoomReport ρ) := do
  let fp ← copy_field s field_num implicit
  if fp.hidden then
    .ok { s with field_properties := fp :: s.field_properties }
  else
    .ok { s with field_properties := s.field_properties ++ [fp] }

/-- `BoomReport.__get_field`: look up a field by name, implicit catalog first,
returning `(index, implicit)`. -/
def get_field (s : BoomReport ρ) (field_name : String) :
    Except PyErr (Nat × Bool) :=
  match (implicit_special_report_fields ρ).findIdx? (fun f => f.name == field_name) with
  | some i => .ok (i, true)
  | none =>
    match s.fields.findIdx? (fun f => f.name == field_name) with
    | some i => .ok (i, false)
    | none => .error (.valueError ("No matching field name: " ++ field_name))

/-- `BoomReport.__field_match`: in types-only mode fold the field's object type
into `report_types`, otherwise add the field.  The source's
`except ValueError ... raise e` re-raises unchanged. -/
def field_match (s : BoomReport ρ) (field_name : String) (type_only : Bool) :
    Except PyErr (BoomReport ρ) :=
  match get_field s field_name with
  | .error e => .error e
  | .ok (f, implicit) =>
    if type_only then do
      let ft ← pyGet (if implicit then implicit_special_report_fields ρ else s.fields) f
      .ok { s with report_types := s.report_types ||| ft.objtype }
    else
      add_field s f implicit

/-- `BoomReport.__parse_fields`, one word at a time: empty tokens are skipped;
on `ValueError` the handler first calls `__display_fields` (which itself
raises `NameError`, pre-empting the diagnostic print and the re-raise). -/
def parse_fields_go (type_only : Bool) (s : BoomReport ρ) :
    List String → Except PyErr (BoomReport ρ)
  | [] => .ok s
  | w :: rest =>
    if w == "" then parse_fields_go type_only s rest
    else
      match field_match s w type_only with
      | .ok s' => parse_fields_go type_only s' rest
      | .error (.valueError m) =>
        (match display_fields s true with
         | .error e2 => .error e2
         | .ok s2 =>
           let _ := pyPrint s2 ("Unrecognised field: " ++ w)
           .error (.valueError m))
      | .error e => .error e

/-- `BoomReport.__parse_fields`. -/
def parse_fields (s : BoomReport ρ) (field_format : String) (type_only : Bool) :
    Except PyErr (BoomReport ρ) :=
  parse_fields_go type_only s (pySplitComma field_format)

/-- The `for fp in self._field_properties: if ...: found = fp` loop of
`__add_sort_key` keeps the LAST matching entry; this returns its index. -/
def last_match_idx (l : List (BoomFieldProperties ρ)) (p : BoomFieldProperties ρ → Bool) :
    Option Nat :=
  l.enum.foldl (fun acc ia => if p ia.2 then some ia.1 else acc) none

/-- `BoomReport.__add_sort_key`.  When the field is not yet selected and this
is not the types-only pass, the source runs `found = self.__add_field(...)`:
`__add_field` returns `None`, so the following `found.sort_key` attribute
access raises `AttributeError`.  When the field is found, a duplicate key is
logged ("Ignoring duplicate sort field") but the code still falls through and
overwrites `sort_key`, `sort_dir` and `sort_posn` and increments
`_keys_count`. -/
def add_sort_key (s : BoomReport ρ) (field_num : Nat) (sort : SortDir)
    (implicit : Bool) (type_only : Bool) : Except PyErr (BoomReport ρ) :=
  let flds := if implicit then implicit_special_report_fields ρ else s.fields
  match last_match_idx s.field_properties
      (fun fp => fp.implicit == implicit && fp.field_num == field_num) with
  | none =>
    if type_only then do
      let ft ← pyGet flds field_num
      .ok { s with report_types := s.report_types ||| ft.objtype }
    else
      match add_field s field_num implicit with
      | .error e => .error e
      | .ok _ => .error (.attributeError "NoneType object has no attribute sort_key")
  | some i => do
    let fp ← pyGet s.field_properties i
    let fp' := { fp with sort_key := true, sort_dir := some sort, sort_posn := some s.keys_count }
    .ok { s with field_properties := s.field_properties.set i fp', keys_count := s.keys_count + 1 }

/-- `BoomReport.__key_match`: strip an optional `+`/`-` direction sign, then
look the key up in the implicit catalog and the caller catalog. -/
def key_match (s : BoomReport ρ) (key_name : String) (type_only : Bool) :
    Except PyErr (BoomReport ρ) :=
  if key_name == "" then .error (.valueError "Sort key name cannot be empty")
  else
    let sd :=
      if pyStartsWith1 '+' key_name then (SortDir.ascending, pyDrop1 key_name)
      else if pyStartsWith1 '-' key_name then (SortDir.descending, pyDrop1 key_name)
      else (SortDir.ascending, key_name)
    match (implicit_special_report_fields ρ).findIdx? (fun f => f.name == sd.2) with
    | some i => add_sort_key s i sd.1 true type_only
    | none =>
      match s.fields.findIdx? (fun f => f.name == sd.2) with
      | some i => add_sort_key s i sd.1 false type_only
      | none => .error (.valueError ("Unknown sort key name: " ++ sd.2))

/-- `BoomReport.__parse_keys`, one word at a time, with the same
`except ValueError` handler as `parse_fields_go`. -/
def parse_keys_go (type_only : Bool) (s : BoomReport ρ) :
    List String → Except PyErr (BoomReport ρ)
  | [] => .ok s
  | w :: rest =>
    if w == "" then parse_keys_go type_only s rest
    else
      match key_match s w type_only with
      | .ok s' => parse_keys_go type_only s' rest
      | .error (.valueError m) =>
        (match display_fields s true with
         | .error e2 => .error e2
         | .ok s2 =>
           let _ := pyPrint s2 ("Unrecognised field: " ++ w)
           .error (.valueError m))
      | .error e => .error e

/-- `BoomReport.__parse_keys`: `if not keys: return` skips `None` and the
empty string. -/
def parse_keys (s : BoomReport ρ) (keys : Option String) (type_only : Bool) :
    Except PyErr (BoomReport ρ) :=
  match keys with
  | none => .ok s
  | some ks =>
    if ks == "" then .ok s
    else parse_keys_go type_only s (pySplitComma ks)

/-- `BoomReport.__init__`.  Note the source reads `opts.buffered` before the
`opts if opts else BoomReportOpts()` default, so a `None` opts raises
`AttributeError`.  An empty or missing `output_fields` defaults to every
catalog field in declaration order.  After the two parsing passes, a requested
help field sets `_already_reported` and calls `__display_fields` (which raises
`NameError`, see `display_fields`). -/
def init (types : List (BoomReportObjType ρ)) (fields : List (BoomFieldType ρ))
    (output_fields : Option String) (opts : Option BoomReportOpts)
    (sort_keys : Option String) (priv : Option ρ) :
    Except PyErr (BoomReport ρ) := do
  match opts with
  | none => .error (.attributeError "NoneType object has no attribute buffered")
  | some o =>
    let s0 : BoomReport ρ :=
      { fields := fields, types := types, priv := priv,
        sort_required := o.buffered, opts := o,
        rows := [], field_properties := [] }
    let ofs :=
      match output_fields with
      | none => pyJoinComma (fields.map (fun f => f.name))
      | some x =>
        if x == "" then pyJoinComma (fields.map (fun f => f.name)) else x
    let s1 ← parse_fields s0 ofs true
    let s2 ← parse_keys s1 sort_keys true
    let s3 ← parse_fields s2 ofs false
    let s4 ← parse_keys s3 sort_keys false
    let hr ← help_requested s4
    if hr then do
      let s5 := { s4 with already_reported := true }
      let s6 ← display_fields s5 true
      .ok (pyPrint s6 "")
    else
      .ok s4

/-- `BoomReport.report_object` (row building).  The `None` check precedes the
`_already_reported` check.  For each field property the object type's data
function extracts the data (a `None` extraction is fatal), the field type's
report function renders it (a `ValueError` is re-raised with the field name),
and the cell is appended to the row.  When sorting is required the row gets a
`_sort_fields` slot array `[-1] * keys_count` (slots modelled by `none`).
Finally the row is buffered and, if output is unbuffered, `report_output` is
invoked at once.  Note that the report function and both error messages read
`self._fields[fp.field_num]` even for implicit field properties, exactly as
the source does. -/
def report_object_go (s : BoomReport ρ) (o : ρ) :
    List (Nat × BoomFieldProperties ρ) → List BoomField → Except PyErr (List BoomField)
  | [], acc => .ok acc
  | (i, fp) :: rest, acc => do
    let field : BoomField := { props_ref := i }
    match fp.objtype.data_fn o with
    | none => do
      let ft ← pyGet s.fields fp.field_num
      .error (.valueError ("No data assigned to field " ++ ft.name))
    | some data => do
      let ft ← pyGet s.fields fp.field_num
      match ft.report_fn field data with
      | .error (.valueError _) =>
        .error (.valueError ("No value assigned to field " ++ ft.name))
      | .error e => .error e
      | .ok field' => report_object_go s o rest (acc ++ [field'])

/-- `row_a._sort_fields[cnt]`: subscripting a `None` sort-field array raises
`TypeError`. -/
def pySubscriptRow (sf : Option (List (Option BoomField))) (i : Nat) :
    Except PyErr (Option BoomField) :=
  match sf with
  | none => .error (.typeError "NoneType object is not subscriptable")
  | some l => pyGet l i

/-- Attribute access on a sort-field slot: the `-1` placeholder left by
`report_object` (modelled by `none`) has no field attributes. -/
def slotField : Option BoomField → Except PyErr BoomField
  | some f => .ok f
  | none => .error (.attributeError "int object has no attribute")

/-- `_row_cmp` (the comparison function built by `__row_key_fn`), iterating
over the sort positions `0, ..., keys_count - 1`.  Numeric-dtype keys compare
their raw sort values with Python `==`/`>`/`<`; all other dtypes compare the
raw values the same way (which for the string values stored by `report_str` /
`report_sha` is string comparison).  Equal values continue to the next key;
the first unequal value decides, using that key's direction. -/
def row_cmp_go (props : List (BoomFieldProperties ρ)) (a b : BoomRow) :
    List Nat → Except PyErr Int
  | [] => .ok 0
  | cnt :: rest => do
    let slot_a ← pySubscriptRow a.sort_fields cnt
    let slot_b ← pySubscriptRow b.sort_fields cnt
    let sfa ← slotField slot_a
    let fpa ← pyGet props sfa.props_ref
    if fpa.dtype == Dtype.num then do
      let num_a := sfa.sort_value
      let sfb ← slotField slot_b
      let num_b := sfb.sort_value
      if pyEqO num_a num_b then row_cmp_go props a b rest
      else if fpa.sort_dir == some SortDir.ascending then do
        let gt ← pyGtO num_a num_b
        .ok (if gt then 1 else -1)
      else do
        let lt ← pyLtO num_a num_b
        .ok (if lt then 1 else -1)
    else do
      let stra := sfa.sort_value
      let sfb ← slotField slot_b
      let strb := sfb.sort_value
      if pyEqO stra strb then row_cmp_go props a b rest
      else if fpa.sort_dir == some SortDir.ascending then do
        let gt ← pyGtO stra strb
        .ok (if gt then 1 else -1)
      else do
        let lt ← pyLtO stra strb
        .ok (if lt then 1 else -1)

/-- `_row_cmp` over `range(0, keys_count)`. -/
def row_cmp (props : List (BoomFieldProperties ρ)) (keys_count : Nat)
    (a b : BoomRow) : Except PyErr Int :=
  row_cmp_go props a b (List.range keys_count)

/-- The boolean "sorts no later than" relation induced by `_row_cmp`, used to
drive the stable sort.  The error branch is never taken by `sort_rows`, which
sorts only when every pairwise comparison is defined. -/
def row_le (props : List (BoomFieldProperties ρ)) (keys_count : Nat)
    (a b : BoomRow) : Bool :=
  match row_cmp props keys_count a b with
  | .ok c => decide (c ≤ 0)
  | .error _ => true

/-- `BoomReport._sort_rows`: sort the buffered rows with the comparator-driven
stable sort.  A comparison that raises aborts CPython's `list.sort` and the
exception propagates out of `report_output` before any output is written;
that situation is modelled as an error result.  (The eager all-pairs guard
coincides with Python exactly when every pair compares cleanly, and also on a
two-row list whose one cross pair raises — sorting two rows always compares
them — which is the only erroring configuration a theorem below relies on;
the partially-sorted buffer Python leaves behind is unobservable because
`report_output` raises before reaching the output stage.) -/
def sort_rows (s : BoomReport ρ) : Except PyErr (BoomReport ρ) :=
  if s.rows.all (fun a => s.rows.all (fun b =>
      (row_cmp s.field_properties s.keys_count a b).toOption.isSome)) then
    .ok { s with rows := stableSort (row_le s.field_properties s.keys_count) s.rows }
  else
    .error (.typeError "exception raised while comparing rows")

/-- Modelled from the spec: the helper `_find_minimum_sha_prefix` is imported
from the `boom` package root, which is not among the sources under
inspection.  Spec section 4.3: "For hash-typed fields, compute the minimum
prefix length `L >= max(configuredMinimum, currentWidth)` such that truncating
every observed value for that field to its first `L` characters yields
pairwise-distinct strings across all rows; if no such `L <= full length`
exists, use the full length."  `vals` is the set of observed rendered values
for the field and `min_pfx` the lower bound `max(configuredMinimum,
currentWidth)` computed by the caller, `__recalculate_sha_width`. -/
def find_minimum_sha_pfx_len (vals : List String) (min_pfx : Nat) : Nat :=
  let full := (vals.map String.length).foldr max 0
  match (List.range (full + 1)).find?
      (fun L => decide (min_pfx ≤ L) && decide ((vals.map (fun v => pyTake v L)).Nodup)) with
  | some L => L
  | none => full

/-- Add a value to a per-field-number set of observed sha strings (Python
`set.add`; the set is modelled as a duplicate-free list, sound because the
spec-modelled prefix helper is order-independent). -/
def sha_set_add (shas : List (Nat × List (Option String))) (num : Nat)
    (v : Option String) : List (Nat × List (Option String)) :=
  shas.map (fun kv =>
    if kv.1 == num then (kv.1, if kv.2.contains v then kv.2 else kv.2 ++ [v]) else kv)

/-- Extract the strings from an observed-value set; a `None` rendered value
would make the (string-typed) prefix helper raise `TypeError` when it touches
the value. -/
def sha_set_strings : List (Option String) → Except PyErr (List String)
  | [] => .ok []
  | some s :: rest => do
    let r ← sha_set_strings rest
    .ok (s :: r)
  | none :: _ => .error (.typeError "expected str, got NoneType")

/-- First loop of `__recalculate_sha_width`: collect, per sha-typed field
number, the set of observed rendered strings and (for the first field cell
encountered) the referenced properties entry. -/
def sha_collect (s : BoomReport ρ) :
    List BoomField →
    List (Nat × List (Option String)) × List (Nat × Nat) →
    Except PyErr (List (Nat × List (Option String)) × List (Nat × Nat))
  | [], acc => .ok acc
  | f :: rest, (shas, pm) => do
    let fp ← pyGet s.field_properties f.props_ref
    let ft ← pyGet s.fields fp.field_num
    if ft.dtype == Dtype.sha then
      let num := fp.field_num
      let start := if (shas.lookup num).isNone
        then (shas ++ [(num, [])], pm ++ [(num, f.props_ref)]) else (shas, pm)
      sha_collect s rest (sha_set_add start.1 num f.report_string, start.2)
    else
      sha_collect s rest (shas, pm)

/-- First loop of `__recalculate_sha_width`, over all rows. -/
def sha_collect_rows (s : BoomReport ρ) :
    List BoomRow →
    List (Nat × List (Option String)) × List (Nat × Nat) →
    Except PyErr (List (Nat × List (Option String)) × List (Nat × Nat))
  | [], acc => .ok acc
  | row :: rest, acc => do
    let acc' ← sha_collect s row.fields acc
    sha_collect_rows s rest acc'

/-- Second loop of `__recalculate_sha_width`: for each collected field number,
set the referenced properties' width to the minimum unique sha prefix length,
starting from `max(MIN_SHA_WIDTH, width)`. -/
def sha_apply (pm : List (Nat × Nat)) (s : BoomReport ρ) :
    List (Nat × List (Option String)) → Except PyErr (BoomReport ρ)
  | [] => .ok s
  | (num, vals) :: rest => do
    let pidx ← match pm.lookup num with
      | some i => .ok i
      | none => .error (.keyError "props_map")
    let fp ← pyGet s.field_properties pidx
    let min_pfx := max MIN_SHA_WIDTH fp.width
    let strs ← sha_set_strings vals
    let w := find_minimum_sha_pfx_len strs min_pfx
    sha_apply pm
      { s with field_properties := s.field_properties.set pidx { fp with width := w } }
      rest

/-- `BoomReport.__recalculate_sha_width`. -/
def recalculate_sha_width (s : BoomReport ρ) : Except PyErr (BoomReport ρ) := do
  let acc ← sha_collect_rows s s.rows ([], [])
  sha_apply acc.2 s acc.1

/-- Body of `__recalculate_fields` for one field cell of one row: fill the
row's sort slot when the field is a sort key (sorting required), then grow the
referenced properties' width to the rendered string's length unless the field
is sha-typed. -/
def recalc_field (s : BoomReport ρ)
    (props : List (BoomFieldProperties ρ)) (row : BoomRow) (f : BoomField) :
    Except PyErr (List (BoomFieldProperties ρ) × BoomRow) := do
  let fp ← pyGet props f.props_ref
  let row' ←
    if s.sort_required && fp.sort_key then
      match row.sort_fields, fp.sort_posn with
      | none, _ => .error (.typeError "NoneType object does not support item assignment")
      | _, none => .error (.typeError "list indices must be integers")
      | some slots, some posn => do
        let slots' ← pySetE slots posn (some f)
        .ok { row with sort_fields := some slots' }
    else .ok row
  let ft ← pyGet s.fields fp.field_num
  if ft.dtype == Dtype.sha then .ok (props, row')
  else do
    let field_len ← pyLenStr f.report_string
    if field_len > fp.width then
      .ok (props.set f.props_ref { fp with width := field_len }, row')
    else
      .ok (props, row')

/-- `__recalculate_fields`, inner loop over one row's fields. -/
def recalc_row (s : BoomReport ρ) :
    List BoomField → List (BoomFieldProperties ρ) × BoomRow →
    Except PyErr (List (BoomFieldProperties ρ) × BoomRow)
  | [], acc => .ok acc
  | f :: rest, (props, row) => do
    let acc' ← recalc_field s props row f
    recalc_row s rest acc'

/-- `__recalculate_fields`, outer loop over the rows. -/
def recalc_rows (s : BoomReport ρ) :
    List BoomRow → List (BoomFieldProperties ρ) × List BoomRow →
    Except PyErr (List (BoomFieldProperties ρ) × List BoomRow)
  | [], acc => .ok acc
  | row :: rest, (props, done) => do
    let pr ← recalc_row s row.fields (props, row)
    recalc_rows s rest (pr.1, done ++ [pr.2])

/-- `BoomReport.__recalculate_fields`. -/
def recalculate_fields (s : BoomReport ρ) : Except PyErr (BoomReport ρ) := do
  let pr ← recalc_rows s s.rows (s.field_properties, [])
  .ok { s with field_properties := pr.1, rows := pr.2 }

/-- `BoomReport.__report_headings`: mark the header written, then (unless
headings are disabled) emit each visible field's heading padded to its width,
joined by the separator; note the separator is appended after every property
except the last one of the whole list.  The heading is read from
`self._fields[fp.field_num]` even for implicit properties, as in the
source.  (`props.index(fp)` finds the identity-distinct properties object, so
it equals the enumeration position.) -/
def report_headings_go (s : BoomReport ρ) (total : Nat) :
    List (Nat × BoomFieldProperties ρ) → String → Except PyErr String
  | [], line => .ok line
  | (i, fp) :: rest, line =>
    if fp.hidden then report_headings_go s total rest line
    else do
      let ft ← pyGet s.fields fp.field_num
      let heading := ft.head
      let heading := if s.opts.aligned then pyFormatLeft fp.width heading else heading
      let line := line ++ heading
      let line := if i != total - 1 then line ++ s.opts.separator else line
      report_headings_go s total rest line

/-- `BoomReport.__report_headings`. -/
def report_headings (s : BoomReport ρ) : Except PyErr (BoomReport ρ) := do
  let s := { s with header_written := true }
  if !s.opts.headings then .ok s
  else do
    let line ← report_headings_go s s.field_properties.length s.field_properties.enum ""
    .ok (pyWrite s (line ++ "\n"))

/-- `BoomReport._output_field`: format one field cell.  The optional
field-name prefix mode prepends `NAME='`; alignment pads/truncates the
rendered string to the properties' width (Python's `%s` renders a missing
value as "None"); quoting appends the closing quote. -/
def output_field (s : BoomReport ρ) (f : BoomField) : Except PyErr String := do
  let fp ← pyGet s.field_properties f.props_ref
  let quote := if s.opts.unquoted then "" else STANDARD_QUOTE
  let pfx ←
    if s.opts.field_name_pfx != "" then do
      let ft ← pyGet s.fields fp.field_num
      .ok (s.opts.field_name_pfx ++ ft.name.toUpper ++ STANDARD_PAIR ++ STANDARD_QUOTE)
    else .ok ""
  let width := fp.width
  let repstr ←
    if s.opts.aligned then
      let al := match fp.align with
        | some a => a
        | none => if fp.dtype == Dtype.num then Align.right else Align.left
      match al with
      | .left => .ok (pyFormatLeft width (pyStrOf f.report_string))
      | .right => .ok (pyFormatRight width (pyStrOf f.report_string))
    else
      match f.report_string with
      | some str => .ok str
      | none => .error (.typeError "can only concatenate str to str")
  .ok (pfx ++ repstr ++ quote)

/-- `BoomReport._output_as_columns`, inner loop: the separator is emitted
before every visible field except the first. -/
def output_row_go (s : BoomReport ρ) :
    List BoomField → String × Bool → Except PyErr String
  | [], (line, _) => .ok line
  | f :: rest, (line, delim) => do
    let fp ← pyGet s.field_properties f.props_ref
    if fp.hidden then output_row_go s rest (line, delim)
    else do
      let piece ← output_field s f
      let line' := if delim then line ++ s.opts.separator ++ piece else line ++ piece
      output_row_go s rest (line', true)

/-- `BoomReport._output_as_columns`, outer loop over the rows. -/
def output_rows_go (s : BoomReport ρ) : List BoomRow → Except PyErr (BoomReport ρ)
  | [] => .ok s
  | row :: rest => do
    let line ← output_row_go s row.fields ("", false)
    output_rows_go (pyWrite s (line ++ "\n")) rest

/-- `BoomReport._output_as_columns`: write the headings if not yet written,
then one line per row. -/
def output_as_columns (s : BoomReport ρ) : Except PyErr (BoomReport ρ) := do
  let s ← if !s.header_written then report_headings s else .ok s
  output_rows_go s s.rows

/-- `BoomReport._output_as_rows`: `pass` in the source. -/
def output_as_rows (s : BoomReport ρ) : Except PyErr (BoomReport ρ) :=
  .ok s

/-- `BoomReport.report_output`: an early return for already-reported (help
mode) reports, otherwise width recalculation (the `_field_calc_needed` flag is
never cleared, so this runs on every call), then sorting when required, then
column output.  Nothing here sets `_already_reported`. -/
def report_output (s : BoomReport ρ) : Except PyErr (BoomReport ρ) :=
  if s.already_reported then .ok s
  else do
    let s ←
      if s.field_calc_needed then do
        let s ← recalculate_sha_width s
        recalculate_fields s
      else .ok s
    let s ← if s.sort_required then sort_rows s else .ok s
    if s.opts.columns_as_rows then output_as_rows s
    else output_as_columns s

/-- `BoomReport.report_object`. -/
def report_object (s : BoomReport ρ) (obj : Option ρ) : Except PyErr (BoomReport ρ) :=
  match obj with
  | none => .error (.valueError "Cannot report NoneType object.")
  | some o =>
    if s.already_reported then .ok s
    else do
      let sort_slots : Option (List (Option BoomField)) :=
        if s.sort_required then some (List.replicate s.keys_count none) else none
      let flds ← report_object_go s o s.field_properties.enum []
      let row : BoomRow := { fields := flds, sort_fields := sort_slots }
      let s' := { s with rows := s.rows ++ [row] }
      if !s'.opts.buffered then report_output s'
      else .ok s'

end BoomReport
open BoomReport

/-
  Setting for claim C5: a buffered report, run through the real pipeline
  (constructor, row submission, finalize), over a two-field catalog: a numeric
  field "num" that is the single sort key, and a string field "tag" that
  carries a payload distinguishing rows with equal keys.  The domain objects
  are `(Int × String)` pairs; each field's report function extracts one
  component, exactly as a caller of the engine would write it.
-/

def c5_ot : BoomReportObjType (Int × String) :=
  { objtype := 1, desc := "Test", pfx := "t_", data_fn := fun x => some x }

/-- The numeric key field: `report_num` of the pair's first component. -/
def c5_ft_num : BoomFieldType (Int × String) :=
  { objtype := 1, name := "num", head := "Num", desc := "a numeric field",
    width := 8, dtype := .num, report_fn := fun f d => f.report_num d.1,
    align := .right }

/-- The string payload field: `report_str` of the pair's second component. -/
def c5_ft_tag : BoomFieldType (Int × String) :=
  { objtype := 1, name := "tag", head := "Tag", desc := "a string field",
    width := 8, dtype := .str, report_fn := fun f d => f.report_str d.2,
    align := .left }

/-- The field properties the constructor builds for "num" (sort key at
position 0, direction `dir`). -/
def c5_pnum (dir : SortDir) : BoomFieldProperties (Int × String) :=
  { field_num := 0, initial_width := 8, width := 8, objtype := c5_ot,
    dtype := .num, align := some .right, sort_key := true,
    sort_dir := some dir, sort_posn := some 0 }

/-- The field properties the constructor builds for "tag". -/
def c5_ptag : BoomFieldProperties (Int × String) :=
  { field_num := 1, initial_width := 8, width := 8, objtype := c5_ot,
    dtype := .str, align := some .left }

/-- The report state `BoomReport.init` produces for the C5 catalog (checked
against `init` in `c5_init_eval`). -/
def c5_state0 (dir : SortDir) : BoomReport (Int × String) :=
  { report_types := 1, fields := [c5_ft_num, c5_ft_tag], types := [c5_ot],
    rows := [], keys_count := 1, field_properties := [c5_pnum dir, c5_ptag],
    sort_required := true, opts := {} }

/-- The sort-key string for each direction. -/
def c5_keyspec : SortDir → String
  | .ascending => "+num"
  | .descending => "-num"

/-- The key cell `report_num` builds for a nonzero value `v`. -/
def c5_key_field (v : Int) : BoomField :=
  { props_ref := 0, report_string := some (toString v), sort_value := some (.num v) }

/-- The payload cell `report_str` builds for `p`. -/
def c5_tag_field (p : String) : BoomField :=
  { props_ref := 1, report_string := some p, sort_value := some (.str p) }

/-- The row as `report_object` buffers it: sort slot still the placeholder. -/
def c5_raw_row (v : Int) (p : String) : BoomRow :=
  { fields := [c5_key_field v, c5_tag_field p], sort_fields := some [none] }

/-- The row after `__recalculate_fields` has filled the sort slot. -/
def c5_row (v : Int) (p : String) : BoomRow :=
  { fields := [c5_key_field v, c5_tag_field p],
    sort_fields := some [some (c5_key_field v)] }

def c5_raw_rows (l : List (Int × String)) : List BoomRow :=
  l.map (fun vp => c5_raw_row vp.1 vp.2)

def c5_rows (l : List (Int × String)) : List BoomRow :=
  l.map (fun vp => c5_row vp.1 vp.2)

/-- Submit a list of domain objects one after the other
(`report_object` per object). -/
def feed_objects (s : BoomReport (Int × String)) :
    List (Int × String) → Except PyErr (BoomReport (Int × String))
  | [] => .ok s
  | vp :: rest => do
    let s' ← BoomReport.report_object s (some vp)
    feed_objects s' rest

/-- The whole C5 pipeline: construct the report, submit every object, then
finalize with `report_output`. -/
def c5_run (dir : SortDir) (l : List (Int × String)) :
    Except PyErr (BoomReport (Int × String)) := do
  let s ← BoomReport.init [c5_ot] [c5_ft_num, c5_ft_tag] (some "num,tag")
    (some {}) (some (c5_keyspec dir)) none
  let s ← feed_objects s l
  BoomReport.report_output s

/-- The raw numeric key of a C5 row. -/
def c5_key (r : BoomRow) : Int :=
  match r.sort_fields with
  | some (some f :: _) =>
    match f.sort_value with
    | some (.num v) => v
    | _ => 0
  | _ => 0

/-- The final row order the pipeline leaves in the report (the order
`_output_as_columns` wrote the rows in). -/
def c5_out_rows (dir : SortDir) (l : List (Int × String)) : List BoomRow :=
  match c5_run dir l with
  | .ok s => s.rows
  | .error _ => []

/-- The C5 pipeline fed the raw key values 0 and 5, stopping before the
finalize step: exhibits the sort values actually stored. -/
def c5_crash_feed : Except PyErr (BoomReport (Int × String)) := do
  let s ← BoomReport.init [c5_ot] [c5_ft_num, c5_ft_tag] (some "num,tag")
    (some {}) (some (c5_keyspec SortDir.ascending)) none
  feed_objects s [(0, "x"), (5, "y")]

/-- The same run including the finalize step. -/
def c5_crash_run : Except PyErr (BoomReport (Int × String)) :=
  c5_run SortDir.ascending [(0, "x"), (5, "y")]

/-
  Concrete catalogs and report runs used by the remaining claim theorems.
-/

/-- The error of a failed report computation, if any. -/
def errOf {α : Type} : Except PyErr α → Option PyErr
  | .error e => some e
  | .ok _ => none

/-- A single caller object type over `Int` domain objects. -/
def test_objtype_int : BoomReportObjType Int :=
  { objtype := 1, desc := "Test", pfx := "t_", data_fn := fun x => some x }

def test_types_int : List (BoomReportObjType Int) := [test_objtype_int]

/-- A numeric catalog field named "a" (configured width 3). -/
def field_a : BoomFieldType Int :=
  { objtype := 1, name := "a", head := "A", desc := "field a", width := 3,
    dtype := .num, report_fn := fun f d => f.report_num d, align := .right }

/-- A numeric catalog field named "b" (configured width 3). -/
def field_b : BoomFieldType Int :=
  { objtype := 1, name := "b", head := "B", desc := "field b", width := 3,
    dtype := .num, report_fn := fun f d => f.report_num d, align := .right }

/-- A single caller object type over `String` domain objects. -/
def test_objtype_str : BoomReportObjType String :=
  { objtype := 1, desc := "Test", pfx := "t_", data_fn := fun x => some x }

def test_types_str : List (BoomReportObjType String) := [test_objtype_str]

/-- A string catalog field named "name" (configured width 4). -/
def field_name_str : BoomFieldType String :=
  { objtype := 1, name := "name", head := "Name", desc := "the name", width := 4,
    dtype := .str, report_fn := fun f d => f.report_str d, align := .left }

/-- A sha catalog field named "id" with a configured minimum width of 4. -/
def field_id_sha : BoomFieldType String :=
  { objtype := 1, name := "id", head := "Id", desc := "the id", width := 4,
    dtype := .sha, report_fn := fun f d => f.report_sha d, align := .left }

/-- C2 run: a buffered one-field report fed one object, then finalized once. -/
def c2_run1 : Except PyErr (BoomReport Int) := do
  let s ← BoomReport.init test_types_int [field_a] (some "a") (some {}) none none
  let s ← BoomReport.report_object s (some 7)
  BoomReport.report_output s

/-- C2 run: the same report finalized a second time. -/
def c2_run2 : Except PyErr (BoomReport Int) := do
  let s ← c2_run1
  BoomReport.report_output s

/-- A report state whose `_already_reported` flag is set (as the constructor
does for help-mode reports). -/
def c2_help_state : BoomReport Int := { already_reported := true }

/-- C3 runs: an unbuffered one-string-field report (configured width 4) fed
"aa", then "bbbbbb", then "cc"; with buffering off each submission triggers
`report_output` itself. -/
def c3_run1 : Except PyErr (BoomReport String) := do
  let s ← BoomReport.init test_types_str [field_name_str] (some "name")
    (some { buffered := false }) none none
  BoomReport.report_object s (some "aa")

def c3_run2 : Except PyErr (BoomReport String) := do
  let s ← c3_run1
  BoomReport.report_object s (some "bbbbbb")

def c3_run3 : Except PyErr (BoomReport String) := do
  let s ← c3_run2
  BoomReport.report_object s (some "cc")

/-- C4 run: a buffered report with one sha field of configured width 4, fed
the two hash values of spec Scenario B, then finalized. -/
def c4_run : Except PyErr (BoomReport String) := do
  let s ← BoomReport.init test_types_str [field_id_sha] (some "id") (some {}) none none
  let s ← BoomReport.report_object s (some "abc123")
  let s ← BoomReport.report_object s (some "abc456")
  BoomReport.report_output s

/-- C9 run: the field "a" declared as a sort key once. -/
def c9_run_single : Except PyErr (BoomReport Int) :=
  BoomReport.init test_types_int [field_a] (some "a") (some {}) (some "a") none

/-- C9 run: the field "a" declared as a sort key twice, the duplicate with the
opposite direction. -/
def c9_run_dup : Except PyErr (BoomReport Int) :=
  BoomReport.init test_types_int [field_a] (some "a") (some {}) (some "a,-a") none

/-- A report state already in help/introspection mode, for C10. -/
def c10_help_state : BoomReport Int := { already_reported := true }



/-
  General lemmas about the stable sort used to model Python's `list.sort`.
  All order-theoretic hypotheses are local: they are only required of the
  elements actually present in the sorted list, because the comparator
  produced by `__row_key_fn` is only well-behaved on well-formed rows.
-/

section StableSortLemmas

variable {α : Type} (le : α → α → Bool) (k : α → Int)

theorem stableInsert_perm (x : α) (l : List α) :
    (stableInsert le x l).Perm (x :: l) := by
  induction l with
  | nil => rfl
  | cons y ys ih =>
    simp only [stableInsert]
    split
    · exact (ih.cons y).trans (List.Perm.swap x y ys)
    · rfl

theorem stableInsert_pairwise (x : α) (l : List α)
    (hle : ∀ a ∈ x :: l, ∀ b ∈ x :: l, le a b = decide (k a ≤ k b))
    (hs : l.Pairwise (fun a b => k a ≤ k b)) :
    (stableInsert le x l).Pairwise (fun a b => k a ≤ k b) := by
  induction l with
  | nil => simp [stableInsert]
  | cons y ys ih =>
    rw [List.pairwise_cons] at hs
    obtain ⟨hy, hys⟩ := hs
    have hyx : le y x = decide (k y ≤ k x) :=
      hle y (by simp) x (by simp)
    simp only [stableInsert]
    by_cases h : le y x = true
    · rw [if_pos h]
      rw [List.pairwise_cons]
      refine ⟨?_, ?_⟩
      · intro b hb
        have hb' : b ∈ x :: ys := (stableInsert_perm le x ys).mem_iff.mp hb
        rcases List.mem_cons.mp hb' with rfl | hb''
        · rw [hyx] at h
          exact of_decide_eq_true h
        · exact hy b hb''
      · refine ih ?_ hys
        intro a ha b hb
        exact hle a (by rcases List.mem_cons.mp ha with h' | h' <;> simp [h']) b
          (by rcases List.mem_cons.mp hb with h' | h' <;> simp [h'])
    · rw [if_neg h]
      have hxy : k x < k y := by
        rw [hyx] at h
        have := of_decide_eq_false (Bool.of_not_eq_true h)
        omega
      rw [List.pairwise_cons]
      refine ⟨?_, List.pairwise_cons.mpr ⟨hy, hys⟩⟩
      intro b hb
      rcases List.mem_cons.mp hb with rfl | hb'
      · omega
      · have := hy b hb'
        omega

theorem stableInsert_filter_ne (x : α) (l : List α) (c : Int) (hx : k x ≠ c) :
    (stableInsert le x l).filter (fun a => k a == c) =
      l.filter (fun a => k a == c) := by
  induction l with
  | nil => simp [stableInsert, List.filter_cons, beq_iff_eq, hx]
  | cons y ys ih =>
    simp only [stableInsert]
    by_cases h : le y x = true
    · rw [if_pos h]
      by_cases hyc : k y = c
      · simp [List.filter_cons, beq_iff_eq, hyc, ih]
      · simp [List.filter_cons, beq_iff_eq, hyc, ih]
    · rw [if_neg h]
      simp [List.filter_cons, beq_iff_eq, hx]

theorem stableInsert_filter_eq (x : α) (l : List α) (c : Int) (hx : k x = c)
    (hle : ∀ a ∈ l, le a x = decide (k a ≤ k x))
    (hs : l.Pairwise (fun a b => k a ≤ k b)) :
    (stableInsert le x l).filter (fun a => k a == c) =
      l.filter (fun a => k a == c) ++ [x] := by
  induction l with
  | nil => simp [stableInsert, List.filter_cons, beq_iff_eq, hx]
  | cons y ys ih =>
    rw [List.pairwise_cons] at hs
    obtain ⟨hy, hys⟩ := hs
    simp only [stableInsert]
    by_cases h : le y x = true
    · rw [if_pos h]
      have ih' := ih (fun a ha => hle a (by simp [ha])) hys
      by_cases hyc : k y = c
      · simp [List.filter_cons, beq_iff_eq, hyc, ih']
      · simp [List.filter_cons, beq_iff_eq, hyc, ih']
    · rw [if_neg h]
      have hxy : k x < k y := by
        have := hle y (by simp)
        rw [this] at h
        have := of_decide_eq_false (Bool.of_not_eq_true h)
        omega
      have hnil : (y :: ys).filter (fun a => k a == c) = [] := by
        rw [List.filter_eq_nil_iff]
        intro a ha
        rcases List.mem_cons.mp ha with rfl | ha'
        · simp [beq_iff_eq]
          omega
        · have := hy a ha'
          simp [beq_iff_eq]
          omega
      rw [List.filter_cons_of_pos (by simp [beq_iff_eq, hx]), hnil]
      simp

theorem stableSortGo_props (l : List α) :
    ∀ acc : List α,
    (∀ a, (a ∈ l ∨ a ∈ acc) → ∀ b, (b ∈ l ∨ b ∈ acc) → le a b = decide (k a ≤ k b)) →
    acc.Pairwise (fun a b => k a ≤ k b) →
    ((stableSortGo le l acc).Perm (l ++ acc) ∧
     (stableSortGo le l acc).Pairwise (fun a b => k a ≤ k b) ∧
     ∀ c, (stableSortGo le l acc).filter (fun a => k a == c) =
       acc.filter (fun a => k a == c) ++ l.filter (fun a => k a == c)) := by
  induction l with
  | nil =>
    intro acc _ hacc
    exact ⟨by simp [stableSortGo], by simpa [stableSortGo] using hacc,
      fun c => by simp [stableSortGo]⟩
  | cons x xs ih =>
    intro acc hle hacc
    simp only [stableSortGo]
    have hmem : ∀ a ∈ stableInsert le x acc, a = x ∨ a ∈ acc := by
      intro a ha
      have := (stableInsert_perm le x acc).mem_iff.mp ha
      simpa using this
    have hle' : ∀ a, (a ∈ xs ∨ a ∈ stableInsert le x acc) →
        ∀ b, (b ∈ xs ∨ b ∈ stableInsert le x acc) → le a b = decide (k a ≤ k b) := by
      intro a ha b hb
      refine hle a ?_ b ?_
      · rcases ha with h' | h'
        · exact Or.inl (by simp [h'])
        · rcases hmem a h' with h'' | h'' <;> simp [h'']
      · rcases hb with h' | h'
        · exact Or.inl (by simp [h'])
        · rcases hmem b h' with h'' | h'' <;> simp [h'']
    have hacc' : (stableInsert le x acc).Pairwise (fun a b => k a ≤ k b) := by
      refine stableInsert_pairwise le k x acc ?_ hacc
      intro a ha b hb
      refine hle a ?_ b ?_
      · rcases List.mem_cons.mp ha with h' | h' <;> simp [h']
      · rcases List.mem_cons.mp hb with h' | h' <;> simp [h']
    obtain ⟨hperm, hpair, hfilter⟩ := ih (stableInsert le x acc) hle' hacc'
    refine ⟨?_, hpair, ?_⟩
    · refine hperm.trans (List.Perm.trans ?_ List.perm_middle)
      exact List.Perm.append_left xs (stableInsert_perm le x acc)
    · intro c
      rw [hfilter c]
      by_cases hxc : k x = c
      · rw [stableInsert_filter_eq le k x acc c hxc
            (fun a ha => hle a (Or.inr ha) x (Or.inl (by simp))) hacc]
        simp [List.filter_cons, beq_iff_eq, hxc]
      · rw [stableInsert_filter_ne le k x acc c hxc]
        simp [List.filter_cons, beq_iff_eq, hxc]

theorem stableSort_props (l : List α)
    (hle : ∀ a ∈ l, ∀ b ∈ l, le a b = decide (k a ≤ k b)) :
    (stableSort le l).Perm l ∧
    (stableSort le l).Pairwise (fun a b => k a ≤ k b) ∧
    ∀ c, (stableSort le l).filter (fun a => k a == c) =
      l.filter (fun a => k a == c) := by
  obtain ⟨hperm, hpair, hfilter⟩ := stableSortGo_props le k l []
    (by intro a ha b hb
        rcases ha with ha | ha
        · rcases hb with hb | hb
          · exact hle a ha b hb
          · cases hb
        · cases ha)
    (by simp)
  refine ⟨by simpa [stableSort] using hperm, by simpa [stableSort] using hpair, ?_⟩
  intro c
  have := hfilter c
  simpa [stableSort] using this

end StableSortLemmas

/-
  Lemmas about the relative order of elements in pairwise-ordered lists,
  phrased through two-element sublists ("a appears before b").
-/

section PairSublist

variable {α : Type}

theorem pair_sublist_of_pairwise {R : α → α → Prop} {l : List α}
    (hp : l.Pairwise R) {a b : α} (ha : a ∈ l) (hb : b ∈ l)
    (hab : a ≠ b) (hR : ¬ R b a) : [a, b].Sublist l := by
  induction l with
  | nil => cases ha
  | cons x xs ih =>
    rw [List.pairwise_cons] at hp
    obtain ⟨hx, hxs⟩ := hp
    rcases List.mem_cons.mp ha with rfl | ha'
    · rcases List.mem_cons.mp hb with rfl | hb'
      · exact absurd rfl hab
      · exact (List.singleton_sublist.mpr hb').cons₂ a
    · rcases List.mem_cons.mp hb with rfl | hb'
      · exact absurd (hx a ha') hR
      · exact (ih hxs ha' hb').cons x

theorem rel_of_pair_sublist {R : α → α → Prop} {l : List α}
    (hp : l.Pairwise R) {a b : α} (h : [a, b].Sublist l) : R a b := by
  have := hp.sublist h
  rw [List.pairwise_cons] at this
  exact this.1 b (by simp)

end PairSublist

/-- `BoomReport.init` on the C5 catalog evaluates to the expected state:
"num,tag" selected, "num" the single sort key at position 0. -/
theorem c5_init_eval (dir : SortDir) :
    BoomReport.init [c5_ot] [c5_ft_num, c5_ft_tag] (some "num,tag")
      (some {}) (some (c5_keyspec dir)) none = .ok (c5_state0 dir) := by
  cases dir <;> rfl

/-- One `report_object` call on the C5 report with a nonzero key value
appends exactly the raw row (see `c5_raw_row`); the nonzero hypothesis is
what keeps `set_value`'s falsy fallback from degrading the sort value. -/
theorem c5_report_object_step (dir : SortDir) (R : List BoomRow) (v : Int)
    (p : String) (hv : v ≠ 0) :
    BoomReport.report_object { c5_state0 dir with rows := R } (some (v, p)) =
      Except.ok { c5_state0 dir with rows := R ++ [c5_raw_row v p] } := by
  simp [BoomReport.report_object, BoomReport.report_object_go, c5_state0,
    c5_pnum, c5_ptag, c5_ft_num, c5_ft_tag, c5_ot, c5_raw_row, c5_key_field,
    c5_tag_field, pyGet, BoomField.report_num, BoomField.report_str,
    BoomField.set_value, Value.pyTruthy, List.enum, List.enumFrom,
    List.replicate, Except.bind, bind, hv]

/-- Feeding a list of objects with nonzero keys buffers exactly the raw
rows, in submission order. -/
theorem c5_feed_all (dir : SortDir) (l : List (Int × String))
    (h : ∀ vp ∈ l, vp.1 ≠ 0) :
    ∀ R : List BoomRow,
      feed_objects { c5_state0 dir with rows := R } l =
        Except.ok { c5_state0 dir with rows := R ++ c5_raw_rows l } := by
  induction l with
  | nil => intro R; simp [feed_objects, c5_raw_rows]
  | cons vp rest ih =>
    intro R
    have hv : vp.1 ≠ 0 := h vp (by simp)
    rw [feed_objects]
    rw [show (some vp : Option (Int × String)) = some (vp.1, vp.2) by rfl]
    rw [c5_report_object_step dir R vp.1 vp.2 hv]
    show feed_objects _ rest = _
    rw [ih (fun x hx => h x (by simp [hx])) (R ++ [c5_raw_row vp.1 vp.2])]
    simp [c5_raw_rows]

/-- `__recalculate_sha_width`'s collection pass skips both C5 fields
(neither is sha-typed). -/
theorem c5_sha_collect_row (dir : SortDir) (R : List BoomRow) (v : Int)
    (p : String) (acc) :
    BoomReport.sha_collect { c5_state0 dir with rows := R }
      [c5_key_field v, c5_tag_field p] acc = Except.ok acc := by
  obtain ⟨shas, pm⟩ := acc
  simp [BoomReport.sha_collect, c5_state0, c5_pnum, c5_ptag, c5_ft_num,
    c5_ft_tag, c5_key_field, c5_tag_field, pyGet, Except.bind, bind]

/-- `__recalculate_sha_width` is the identity on the C5 report (no
sha-typed fields). -/
theorem c5_recalc_sha_id (dir : SortDir) (R : List BoomRow)
    (h : ∀ r ∈ R, ∃ v p, r = c5_raw_row v p) :
    BoomReport.recalculate_sha_width { c5_state0 dir with rows := R } =
      Except.ok { c5_state0 dir with rows := R } := by
  have hc : ∀ rows, (∀ r ∈ rows, ∃ v p, r = c5_raw_row v p) → ∀ acc,
      BoomReport.sha_collect_rows { c5_state0 dir with rows := R } rows acc =
        Except.ok acc := by
    intro rows
    induction rows with
    | nil => intro _ acc; simp [BoomReport.sha_collect_rows]
    | cons r rest ih =>
      intro hall acc
      obtain ⟨v, p, rfl⟩ := hall r (by simp)
      rw [BoomReport.sha_collect_rows]
      rw [show (c5_raw_row v p).fields = [c5_key_field v, c5_tag_field p] from rfl]
      rw [c5_sha_collect_row]
      exact ih (fun x hx => hall x (by simp [hx])) acc
  rw [BoomReport.recalculate_sha_width]
  rw [show ({ c5_state0 dir with rows := R } : BoomReport (Int × String)).rows = R from rfl]
  rw [hc R h ([], [])]
  rfl

/-- `__recalculate_fields` on one C5 row fills the sort slot with the key
cell and grows both widths to the rendered lengths. -/
theorem c5_recalc_row_step (dir : SortDir) (R : List BoomRow) (v : Int)
    (p : String) (w0 w1 : Nat) :
    BoomReport.recalc_row { c5_state0 dir with rows := R }
      [c5_key_field v, c5_tag_field p]
      ([{ c5_pnum dir with width := w0 }, { c5_ptag with width := w1 }],
        c5_raw_row v p) =
    Except.ok ([{ c5_pnum dir with width := max w0 (toString v).length },
                { c5_ptag with width := max w1 p.length }], c5_row v p) := by
  by_cases h0 : (toString v).length > w0 <;> by_cases h1 : p.length > w1 <;>
    simp [BoomReport.recalc_row, BoomReport.recalc_field, c5_state0, c5_pnum,
      c5_ptag, c5_ft_num, c5_ft_tag, c5_key_field, c5_tag_field, c5_raw_row,
      c5_row, pyGet, pySetE, pyLenStr, Except.bind, bind, h0, h1] <;> omega

/-- `__recalculate_fields`' row loop turns every raw row into its
slot-filled form, for some final pair of widths. -/
theorem c5_recalc_rows_all (dir : SortDir) (R : List BoomRow)
    (l : List (Int × String)) :
    ∀ (w0 w1 : Nat) (done : List BoomRow),
      ∃ w0' w1',
        BoomReport.recalc_rows { c5_state0 dir with rows := R } (c5_raw_rows l)
          ([{ c5_pnum dir with width := w0 }, { c5_ptag with width := w1 }], done) =
        Except.ok ([{ c5_pnum dir with width := w0' },
                    { c5_ptag with width := w1' }], done ++ c5_rows l) := by
  induction l with
  | nil =>
    intro w0 w1 done
    exact ⟨w0, w1, by simp [BoomReport.recalc_rows, c5_raw_rows, c5_rows]⟩
  | cons vp rest ih =>
    intro w0 w1 done
    obtain ⟨w0', w1', hrest⟩ := ih (max w0 (toString vp.1).length) (max w1 vp.2.length)
      (done ++ [c5_row vp.1 vp.2])
    refine ⟨w0', w1', ?_⟩
    rw [show c5_raw_rows (vp :: rest) = c5_raw_row vp.1 vp.2 :: c5_raw_rows rest from rfl]
    rw [BoomReport.recalc_rows]
    rw [show (c5_raw_row vp.1 vp.2).fields = [c5_key_field vp.1, c5_tag_field vp.2] from rfl]
    rw [c5_recalc_row_step]
    show BoomReport.recalc_rows _ _ _ = _
    rw [hrest]
    simp [c5_rows]

/-- `__recalculate_fields` on the C5 report: rows get their sort slots
filled, properties keep everything but the widths. -/
theorem c5_recalc_fields_eval (dir : SortDir) (l : List (Int × String)) :
    ∃ w0' w1',
      BoomReport.recalculate_fields { c5_state0 dir with rows := c5_raw_rows l } =
      Except.ok { c5_state0 dir with
        rows := c5_rows l
        field_properties := [{ c5_pnum dir with width := w0' },
                             { c5_ptag with width := w1' }] } := by
  obtain ⟨w0', w1', hrows⟩ := c5_recalc_rows_all dir (c5_raw_rows l) l 8 8 []
  refine ⟨w0', w1', ?_⟩
  rw [BoomReport.recalculate_fields]
  rw [show ({ c5_state0 dir with rows := c5_raw_rows l } :
    BoomReport (Int × String)).rows = c5_raw_rows l from rfl]
  rw [show ({ c5_state0 dir with rows := c5_raw_rows l } :
    BoomReport (Int × String)).field_properties =
    [{ c5_pnum dir with width := 8 }, { c5_ptag with width := 8 }] from rfl]
  rw [hrows]
  simp [Except.bind, bind]

/-- The raw key of a C5 row is its first component. -/
theorem c5_key_row (v : Int) (p : String) : c5_key (c5_row v p) = v := rfl

/-- Every member of `c5_rows l` is a `c5_row`. -/
theorem c5_rows_shape {l : List (Int × String)} {r : BoomRow}
    (h : r ∈ c5_rows l) : ∃ v p, r = c5_row v p := by
  simp only [c5_rows, List.mem_map] at h
  obtain ⟨vp, _, rfl⟩ := h
  exact ⟨vp.1, vp.2, rfl⟩

/-- `_row_cmp` on two C5 rows (any widths): equal keys compare equal,
otherwise the configured direction decides. -/
theorem c5_cmp (dir : SortDir) (w0 w1 : Nat) (v w : Int) (p q : String) :
    row_cmp [{ c5_pnum dir with width := w0 }, { c5_ptag with width := w1 }] 1
      (c5_row v p) (c5_row w q) =
      .ok (if v = w then 0
           else match dir with
                | .ascending => if w < v then 1 else -1
                | .descending => if v < w then 1 else -1) := by
  by_cases h : v = w <;> cases dir <;>
    simp [row_cmp, row_cmp_go, List.range, List.range.loop, c5_row,
      c5_key_field, c5_pnum, c5_ptag, pySubscriptRow, pyGet, slotField,
      pyEqO, pyGtO, pyLtO, h, Except.bind, bind]

/-- The sort relation induced by `_row_cmp` on C5 rows, ascending. -/
theorem c5_row_le_asc (w0 w1 : Nat) (v w : Int) (p q : String) :
    row_le [{ c5_pnum SortDir.ascending with width := w0 },
            { c5_ptag with width := w1 }] 1 (c5_row v p) (c5_row w q) =
      decide (v ≤ w) := by
  rw [row_le, c5_cmp]
  by_cases h : v = w
  · simp [h]
  · by_cases h2 : w < v
    all_goals simp [h, h2]
    all_goals omega

/-- The sort relation induced by `_row_cmp` on C5 rows, descending. -/
theorem c5_row_le_desc (w0 w1 : Nat) (v w : Int) (p q : String) :
    row_le [{ c5_pnum SortDir.descending with width := w0 },
            { c5_ptag with width := w1 }] 1 (c5_row v p) (c5_row w q) =
      decide (w ≤ v) := by
  rw [row_le, c5_cmp]
  by_cases h : v = w
  · simp [h]
  · by_cases h2 : v < w
    all_goals simp [h, h2]
    all_goals omega

/-- `_sort_rows` on a report all of whose pairwise row comparisons are
defined: the rows are stably sorted by the comparator relation. -/
theorem sort_rows_eval_of_defined {ρ : Type} (s : BoomReport ρ)
    (h : ∀ a ∈ s.rows, ∀ b ∈ s.rows,
      (row_cmp s.field_properties s.keys_count a b).toOption.isSome = true) :
    BoomReport.sort_rows s =
      Except.ok { s with rows := stableSort (row_le s.field_properties s.keys_count) s.rows } := by
  rw [BoomReport.sort_rows, if_pos]
  rw [List.all_eq_true]
  intro a ha
  rw [List.all_eq_true]
  intro b hb
  exact h a ha b hb

/-- `_sort_rows` on the C5 report after width recalculation. -/
theorem c5_sort_rows_eval (dir : SortDir) (l : List (Int × String)) (w0 w1 : Nat) :
    BoomReport.sort_rows { c5_state0 dir with
        rows := c5_rows l
        field_properties := [{ c5_pnum dir with width := w0 },
                             { c5_ptag with width := w1 }] } =
      Except.ok { c5_state0 dir with
        rows := stableSort (row_le [{ c5_pnum dir with width := w0 },
                                    { c5_ptag with width := w1 }] 1) (c5_rows l)
        field_properties := [{ c5_pnum dir with width := w0 },
                             { c5_ptag with width := w1 }] } := by
  refine sort_rows_eval_of_defined _ ?_
  intro a ha b hb
  obtain ⟨va, pa, rfl⟩ := c5_rows_shape (l := l) ha
  obtain ⟨vb, pb, rfl⟩ := c5_rows_shape (l := l) hb
  show (row_cmp [{ c5_pnum dir with width := w0 }, { c5_ptag with width := w1 }] 1
    _ _).toOption.isSome = true
  rw [c5_cmp]
  rfl

/-- The stable sort is a permutation, with no hypothesis on the
comparator. -/
theorem stableSortGo_perm {α : Type} (le : α → α → Bool) :
    ∀ (l acc : List α), (stableSortGo le l acc).Perm (l ++ acc) := by
  intro l
  induction l with
  | nil => intro acc; simp [stableSortGo]
  | cons x xs ih =>
    intro acc
    rw [stableSortGo]
    refine (ih (stableInsert le x acc)).trans ?_
    refine (List.Perm.append_left xs (stableInsert_perm le x acc)).trans ?_
    exact List.perm_middle

theorem stableSort_perm {α : Type} (le : α → α → Bool) (l : List α) :
    (stableSort le l).Perm l := by
  have := stableSortGo_perm le l []
  simpa [stableSort] using this

/-- Sorting preserves the C5 row shape. -/
theorem c5_sorted_rows_shape (dir : SortDir) (w0 w1 : Nat)
    (l : List (Int × String)) {r : BoomRow}
    (h : r ∈ stableSort (row_le [{ c5_pnum dir with width := w0 },
      { c5_ptag with width := w1 }] 1) (c5_rows l)) : ∃ v p, r = c5_row v p :=
  c5_rows_shape ((stableSort_perm _ _).mem_iff.mp h)

/-- `_output_as_columns`' field loop renders one C5 row as the
right-aligned key and the left-aligned tag. -/
theorem c5_output_row_eval (dir : SortDir) (R : List BoomRow) (W : List String)
    (H : Bool) (w0 w1 : Nat) (v : Int) (p : String) :
    BoomReport.output_row_go { c5_state0 dir with
        rows := R, written := W, header_written := H,
        field_properties := [{ c5_pnum dir with width := w0 },
                             { c5_ptag with width := w1 }] }
      [c5_key_field v, c5_tag_field p] ("", false) =
      Except.ok (pyFormatRight w0 (toString v) ++ " " ++ pyFormatLeft w1 p) := by
  simp [BoomReport.output_row_go, BoomReport.output_field, c5_state0, c5_pnum,
    c5_ptag, c5_ft_num, c5_ft_tag, c5_key_field, c5_tag_field, pyGet, pyStrOf,
    STANDARD_QUOTE, STANDARD_PAIR, Except.bind, bind]

/-- `_output_as_columns`' row loop writes one line per C5 row and changes
nothing else. -/
theorem c5_output_rows_eval (dir : SortDir) (w0 w1 : Nat)
    (rows : List BoomRow) (h : ∀ r ∈ rows, ∃ v p, r = c5_row v p) :
    ∀ (R : List BoomRow) (W : List String) (H : Bool),
      ∃ w : List String,
        BoomReport.output_rows_go { c5_state0 dir with
            rows := R, written := W, header_written := H,
            field_properties := [{ c5_pnum dir with width := w0 },
                                 { c5_ptag with width := w1 }] } rows =
        Except.ok { c5_state0 dir with
            rows := R, written := W ++ w, header_written := H,
            field_properties := [{ c5_pnum dir with width := w0 },
                                 { c5_ptag with width := w1 }] } := by
  induction rows with
  | nil =>
    intro R W H
    exact ⟨[], by simp [BoomReport.output_rows_go]⟩
  | cons r rest ih =>
    intro R W H
    obtain ⟨v, p, rfl⟩ := h r (by simp)
    obtain ⟨w', hrest⟩ := ih (fun x hx => h x (by simp [hx])) R
      (W ++ [pyFormatRight w0 (toString v) ++ " " ++ pyFormatLeft w1 p ++ "\n"]) H
    refine ⟨(pyFormatRight w0 (toString v) ++ " " ++ pyFormatLeft w1 p ++ "\n") :: w', ?_⟩
    rw [BoomReport.output_rows_go]
    rw [show (c5_row v p).fields = [c5_key_field v, c5_tag_field p] from rfl]
    rw [c5_output_row_eval]
    show BoomReport.output_rows_go _ rest = _
    rw [show (BoomReport.pyWrite { c5_state0 dir with
        rows := R, written := W, header_written := H,
        field_properties := [{ c5_pnum dir with width := w0 },
                             { c5_ptag with width := w1 }] }
        (pyFormatRight w0 (toString v) ++ " " ++ pyFormatLeft w1 p ++ "\n")) =
      { c5_state0 dir with
        rows := R,
        written := W ++ [pyFormatRight w0 (toString v) ++ " " ++ pyFormatLeft w1 p ++ "\n"],
        header_written := H,
        field_properties := [{ c5_pnum dir with width := w0 },
                             { c5_ptag with width := w1 }] } from rfl]
    rw [hrest]
    simp

/-- `__report_headings` on the C5 report writes the one heading line and
sets `_header_written`. -/
theorem c5_headings_eval (dir : SortDir) (R : List BoomRow) (w0 w1 : Nat) :
    BoomReport.report_headings { c5_state0 dir with
        rows := R,
        field_properties := [{ c5_pnum dir with width := w0 },
                             { c5_ptag with width := w1 }] } =
      Except.ok { c5_state0 dir with
        rows := R, header_written := true,
        written := [pyFormatLeft w0 "Num" ++ " " ++ pyFormatLeft w1 "Tag" ++ "\n"],
        field_properties := [{ c5_pnum dir with width := w0 },
                             { c5_ptag with width := w1 }] } := by
  simp [BoomReport.report_headings, BoomReport.report_headings_go,
    BoomReport.pyWrite, c5_state0, c5_pnum, c5_ptag, c5_ft_num, c5_ft_tag,
    pyGet, List.enum, List.enumFrom, Except.bind, bind]

/-- `_output_as_columns` on the C5 report succeeds, leaving the rows
untouched. -/
theorem c5_output_columns_eval (dir : SortDir) (w0 w1 : Nat)
    (rows : List BoomRow) (h : ∀ r ∈ rows, ∃ v p, r = c5_row v p) :
    ∃ w : List String,
      BoomReport.output_as_columns { c5_state0 dir with
          rows := rows,
          field_properties := [{ c5_pnum dir with width := w0 },
                               { c5_ptag with width := w1 }] } =
      Except.ok { c5_state0 dir with
          rows := rows, header_written := true, written := w,
          field_properties := [{ c5_pnum dir with width := w0 },
                               { c5_ptag with width := w1 }] } := by
  obtain ⟨w', hrows⟩ := c5_output_rows_eval dir w0 w1 rows h rows
    [pyFormatLeft w0 "Num" ++ " " ++ pyFormatLeft w1 "Tag" ++ "\n"] true
  refine ⟨(pyFormatLeft w0 "Num" ++ " " ++ pyFormatLeft w1 "Tag" ++ "\n") :: w', ?_⟩
  rw [BoomReport.output_as_columns]
  rw [show ({ c5_state0 dir with
      rows := rows,
      field_properties := [{ c5_pnum dir with width := w0 },
                           { c5_ptag with width := w1 }] } :
    BoomReport (Int × String)).header_written = false from rfl]
  simp only [Bool.not_false, if_pos]
  rw [c5_headings_eval]
  show BoomReport.output_rows_go _ _ = _
  rw [show ({ c5_state0 dir with
      rows := rows, header_written := true,
      written := [pyFormatLeft w0 "Num" ++ " " ++ pyFormatLeft w1 "Tag" ++ "\n"],
      field_properties := [{ c5_pnum dir with width := w0 },
                           { c5_ptag with width := w1 }] } :
    BoomReport (Int × String)).rows = rows from rfl]
  rw [hrows]
  simp

/-- Every member of `c5_raw_rows l` is a `c5_raw_row`. -/
theorem c5_raw_rows_shape {l : List (Int × String)} {r : BoomRow}
    (h : r ∈ c5_raw_rows l) : ∃ v p, r = c5_raw_row v p := by
  simp only [c5_raw_rows, List.mem_map] at h
  obtain ⟨vp, _, rfl⟩ := h
  exact ⟨vp.1, vp.2, rfl⟩

/-- `report_output` on the C5 report with buffered raw rows: sha pass is
the identity, widths are recalculated, slots filled, rows stably sorted by
the comparator, header and row lines written. -/
theorem c5_report_output_eval (dir : SortDir) (l : List (Int × String)) :
    ∃ (w0 w1 : Nat) (w : List String),
      BoomReport.report_output { c5_state0 dir with rows := c5_raw_rows l } =
      Except.ok { c5_state0 dir with
        rows := stableSort (row_le [{ c5_pnum dir with width := w0 },
                                    { c5_ptag with width := w1 }] 1) (c5_rows l),
        header_written := true, written := w,
        field_properties := [{ c5_pnum dir with width := w0 },
                             { c5_ptag with width := w1 }] } := by
  obtain ⟨w0, w1, hrecalc⟩ := c5_recalc_fields_eval dir l
  obtain ⟨w, hout⟩ := c5_output_columns_eval dir w0 w1
    (stableSort (row_le [{ c5_pnum dir with width := w0 },
      { c5_ptag with width := w1 }] 1) (c5_rows l))
    (fun r hr => c5_sorted_rows_shape dir w0 w1 l hr)
  refine ⟨w0, w1, w, ?_⟩
  have hsha := c5_recalc_sha_id dir (c5_raw_rows l) (fun r hr => c5_raw_rows_shape hr)
  have hsort := c5_sort_rows_eval dir l w0 w1
  simp only [BoomReport.report_output, Except.bind, bind, hsha, hrecalc, hsort, hout]
  rfl

/-- The whole C5 pipeline (constructor, submissions with nonzero keys,
finalize) succeeds and leaves the stably sorted rows. -/
theorem c5_run_eval (dir : SortDir) (l : List (Int × String))
    (h : ∀ vp ∈ l, vp.1 ≠ 0) :
    ∃ (w0 w1 : Nat) (w : List String),
      c5_run dir l =
      Except.ok { c5_state0 dir with
        rows := stableSort (row_le [{ c5_pnum dir with width := w0 },
                                    { c5_ptag with width := w1 }] 1) (c5_rows l),
        header_written := true, written := w,
        field_properties := [{ c5_pnum dir with width := w0 },
                             { c5_ptag with width := w1 }] } := by
  obtain ⟨w0, w1, w, hro⟩ := c5_report_output_eval dir l
  refine ⟨w0, w1, w, ?_⟩
  have hfeed : feed_objects (c5_state0 dir) l =
      Except.ok { c5_state0 dir with rows := c5_raw_rows l } := by
    have := c5_feed_all dir l h []
    simpa using this
  simp only [c5_run, Except.bind, bind, c5_init_eval, hfeed, hro]

/-- C5 (amended): for every buffered report over the two-field catalog
with the single numeric sort key, run through the real pipeline
(`init`, one `report_object` per object, `report_output`), with every raw
key value nonzero: the run succeeds in both directions, the final row list
is a permutation of the buffered rows, ascending order is non-decreasing in
the raw key, descending is non-increasing, every pair with distinct keys
appears in the reversed relative order under the opposite direction, and
rows with equal keys keep their insertion (append) order under either
direction ("before" is expressed as a two-element sublist).  The nonzero
restriction is forced by the zero-key counterexample
(`C5_zero_key_counterexample`). -/
theorem C5_nonzero_single_key_sorting (l : List (Int × String))
    (h : ∀ vp ∈ l, vp.1 ≠ 0) :
    errOf (c5_run SortDir.ascending l) = none ∧
    errOf (c5_run SortDir.descending l) = none ∧
    (c5_out_rows SortDir.ascending l).Perm (c5_rows l) ∧
    (c5_out_rows SortDir.descending l).Perm (c5_rows l) ∧
    (c5_out_rows SortDir.ascending l).Pairwise (fun a b => c5_key a ≤ c5_key b) ∧
    (c5_out_rows SortDir.descending l).Pairwise (fun a b => c5_key b ≤ c5_key a) ∧
    (∀ a b, [a, b].Sublist (c5_out_rows SortDir.ascending l) →
      c5_key a ≠ c5_key b → [b, a].Sublist (c5_out_rows SortDir.descending l)) ∧
    (∀ a b, [a, b].Sublist (c5_rows l) → c5_key a = c5_key b →
      [a, b].Sublist (c5_out_rows SortDir.ascending l) ∧
      [a, b].Sublist (c5_out_rows SortDir.descending l)) := by
  obtain ⟨a0, a1, wa, hA⟩ := c5_run_eval SortDir.ascending l h
  obtain ⟨d0, d1, wd, hD⟩ := c5_run_eval SortDir.descending l h
  have hOA : c5_out_rows SortDir.ascending l =
      stableSort (row_le [{ c5_pnum SortDir.ascending with width := a0 },
        { c5_ptag with width := a1 }] 1) (c5_rows l) := by
    rw [c5_out_rows, hA]
  have hOD : c5_out_rows SortDir.descending l =
      stableSort (row_le [{ c5_pnum SortDir.descending with width := d0 },
        { c5_ptag with width := d1 }] 1) (c5_rows l) := by
    rw [c5_out_rows, hD]
  have hle_asc : ∀ a ∈ c5_rows l, ∀ b ∈ c5_rows l,
      row_le [{ c5_pnum SortDir.ascending with width := a0 },
        { c5_ptag with width := a1 }] 1 a b = decide (c5_key a ≤ c5_key b) := by
    intro a ha b hb
    obtain ⟨va, pa, rfl⟩ := c5_rows_shape ha
    obtain ⟨vb, pb, rfl⟩ := c5_rows_shape hb
    rw [c5_row_le_asc, c5_key_row, c5_key_row]
  have hle_desc : ∀ a ∈ c5_rows l, ∀ b ∈ c5_rows l,
      row_le [{ c5_pnum SortDir.descending with width := d0 },
        { c5_ptag with width := d1 }] 1 a b =
        decide (-(c5_key a) ≤ -(c5_key b)) := by
    intro a ha b hb
    obtain ⟨va, pa, rfl⟩ := c5_rows_shape ha
    obtain ⟨vb, pb, rfl⟩ := c5_rows_shape hb
    rw [c5_row_le_desc, c5_key_row, c5_key_row]
    exact decide_eq_decide.mpr (by omega)
  obtain ⟨hpermA, hpairA, hfiltA⟩ :=
    stableSort_props (row_le [{ c5_pnum SortDir.ascending with width := a0 },
      { c5_ptag with width := a1 }] 1) c5_key (c5_rows l) hle_asc
  obtain ⟨hpermD, hpairD0, hfiltD⟩ :=
    stableSort_props (row_le [{ c5_pnum SortDir.descending with width := d0 },
      { c5_ptag with width := d1 }] 1) (fun r => -(c5_key r)) (c5_rows l) hle_desc
  have hpairD : (stableSort (row_le [{ c5_pnum SortDir.descending with width := d0 },
      { c5_ptag with width := d1 }] 1) (c5_rows l)).Pairwise
      (fun a b => c5_key b ≤ c5_key a) :=
    hpairD0.imp (by intro a b hab; omega)
  refine ⟨by rw [hA]; rfl, by rw [hD]; rfl, ?_, ?_, ?_, ?_, ?_, ?_⟩
  · rw [hOA]
    exact hpermA
  · rw [hOD]
    exact hpermD
  · rw [hOA]
    exact hpairA
  · rw [hOD]
    exact hpairD
  · intro a b hab hne
    rw [hOA] at hab
    rw [hOD]
    have hRab : c5_key a ≤ c5_key b := rel_of_pair_sublist hpairA hab
    have hlt : c5_key a < c5_key b := lt_of_le_of_ne hRab hne
    have haM : a ∈ c5_rows l :=
      hpermA.mem_iff.mp (hab.subset (by simp))
    have hbM : b ∈ c5_rows l :=
      hpermA.mem_iff.mp (hab.subset (by simp))
    refine pair_sublist_of_pairwise hpairD (hpermD.mem_iff.mpr hbM)
      (hpermD.mem_iff.mpr haM) ?_ ?_
    · intro hba
      exact hne ((congrArg c5_key hba).symm)
    · intro hle'
      omega
  · intro a b hab heq
    constructor
    · rw [hOA]
      have h1 : [a, b].filter (fun x => c5_key x == c5_key a) = [a, b] := by
        simp [List.filter_cons, beq_iff_eq, heq]
      have h2 : [a, b].Sublist
          ((c5_rows l).filter (fun x => c5_key x == c5_key a)) := by
        rw [← h1]
        exact hab.filter _
      rw [← hfiltA (c5_key a)] at h2
      exact h2.trans (List.filter_sublist _)
    · rw [hOD]
      have h1 : [a, b].filter (fun x => -(c5_key x) == -(c5_key a)) = [a, b] := by
        simp [List.filter_cons, beq_iff_eq, heq]
      have h2 : [a, b].Sublist
          ((c5_rows l).filter (fun x => -(c5_key x) == -(c5_key a))) := by
        rw [← h1]
        exact hab.filter _
      rw [← hfiltD (-(c5_key a))] at h2
      exact h2.trans (List.filter_sublist _)

/-- Witness for C5 (amended) at the concrete input
`[(2, "x"), (1, "y"), (1, "z")]`: the pipeline succeeds, the equal-keyed
rows keep their insertion order ascending, and the distinct-keyed pair is
reversed descending. -/
theorem C5_nonzero_single_key_sorting_witness :
    errOf (c5_run SortDir.ascending [(2, "x"), (1, "y"), (1, "z")]) = none ∧
    [c5_row 1 "y", c5_row 1 "z"].Sublist
      (c5_out_rows SortDir.ascending [(2, "x"), (1, "y"), (1, "z")]) ∧
    [c5_row 2 "x", c5_row 1 "y"].Sublist
      (c5_out_rows SortDir.descending [(2, "x"), (1, "y"), (1, "z")]) :=
  ⟨(C5_nonzero_single_key_sorting [(2, "x"), (1, "y"), (1, "z")] (by decide)).1,
   ((C5_nonzero_single_key_sorting [(2, "x"), (1, "y"), (1, "z")]
      (by decide)).2.2.2.2.2.2.2 (c5_row 1 "y") (c5_row 1 "z")
      (by decide) (by decide)).1,
   (C5_nonzero_single_key_sorting [(2, "x"), (1, "y"), (1, "z")]
      (by decide)).2.2.2.2.2.2.1 (c5_row 1 "y") (c5_row 2 "x")
      (by decide) (by decide)⟩

/-- C5 counterexample: the claim as stated fails at the raw key values
0 and 5.  `report_num` stores the STRING "0" as the sort value for the key
0 (the `set_value` falsy fallback, see C8), and the finalize step then
raises `TypeError` when `_row_cmp` compares that string with the number 5,
so sorting aborts and no output row order exists at all. -/
theorem C5_zero_key_counterexample :
    c5_crash_feed.map (fun s => s.rows.map (fun r => r.fields.map
        (fun f => f.sort_value))) =
      Except.ok [[some (Value.str "0"), some (Value.str "x")],
                 [some (Value.num 5), some (Value.str "y")]] ∧
    errOf c5_crash_run = some (PyErr.typeError "exception raised while comparing rows") := by
  refine ⟨by decide, by decide⟩

/-- C1: in the materializing (second) pass, a sort-key token naming a known
field that is not among the selected output fields does NOT produce a hidden
column: `__add_sort_key` binds the result of `__add_field` — which has no
return statement, hence `None` — and then dereferences it (`found.sort_key`),
so report construction aborts with `AttributeError`.  Here the catalog holds
fields "a" and "b", "a" is the only output field, and "b" is the sort key. -/
theorem C1_sort_key_on_unselected_field_crashes :
    errOf (BoomReport.init test_types_int [field_a, field_b] (some "a")
        (some {}) (some "b") none) =
      some (PyErr.attributeError "NoneType object has no attribute sort_key") := by
  decide

/-- C2 counterexample: finalizing the report a second time is not a no-op.
After the first `report_output` the sink holds the header and the single row;
the second `report_output` writes the row line again (`_already_reported` is
never set by `report_output` and `_field_calc_needed` is never cleared). -/
theorem C2_second_output_writes_again_counterexample :
    c2_run1.map (fun s => s.written) = Except.ok ["A  \n", "  7\n"] ∧
    c2_run2.map (fun s => s.written) = Except.ok ["A  \n", "  7\n", "  7\n"] ∧
    (["A  \n", "  7\n", "  7\n"] : List String) ≠ ["A  \n", "  7\n"] := by
  refine ⟨by decide, by decide, by decide⟩

/-- C2 amended: `report_output` returns without output only for a report whose
`_already_reported` flag is set (which only help/introspection mode does); for
any other report a second call repeats the width calculation and sorting and
writes every row line again — only the header, guarded by `_header_written`,
is not repeated, as the concrete run shows. -/
theorem C2_report_output_second_call (ρ : Type) (s : BoomReport ρ) :
    (s.already_reported = true → BoomReport.report_output s = Except.ok s) ∧
    c2_run1.map (fun t => t.written) = Except.ok ["A  \n", "  7\n"] ∧
    c2_run2.map (fun t => t.written) = Except.ok ["A  \n", "  7\n", "  7\n"] := by
  refine ⟨?_, by decide, by decide⟩
  intro h
  simp [BoomReport.report_output, h]

/-- Witness for the amended C2 at a concrete help-mode report state. -/
theorem C2_report_output_second_call_witness :
    BoomReport.report_output c2_help_state = Except.ok c2_help_state :=
  (C2_report_output_second_call Int c2_help_state).1 rfl

/-- C3 counterexample: with buffering off and the three submissions "aa",
"bbbbbb", "cc" to a width-4 string column, the sink receives seven lines
(header plus 1+2+3 row lines, earlier rows being re-written on every
submission), and the column width grows to 6 — not the configured 4. -/
theorem C3_unbuffered_counterexample :
    c3_run3.map (fun s => (s.written, s.field_properties.map (fun fp => fp.width))) =
      Except.ok (["Name\n", "aa  \n", "aa    \n", "bbbbbb\n", "aa    \n",
                  "bbbbbb\n", "cc    \n"], [6]) ∧
    ¬ (6 ≤ 4) := by
  refine ⟨by decide, by decide⟩

/-- C3 amended: with buffering off, each `report_object` call triggers a full
`report_output` over every row buffered so far, so the n-th submission writes
n row lines (plus the header once), field widths still grow to the longest
observed rendered value (here 6), and no sorting is performed
(`_sort_required` stays false). -/
theorem C3_unbuffered_rewrites_all_rows :
    c3_run1.map (fun s => (s.written.length, s.sort_required)) = Except.ok (2, false) ∧
    c3_run2.map (fun s => (s.written.length, s.sort_required)) = Except.ok (4, false) ∧
    c3_run3.map (fun s => (s.written, s.field_properties.map (fun fp => fp.width),
        s.sort_required)) =
      Except.ok (["Name\n", "aa  \n", "aa    \n", "bbbbbb\n", "aa    \n",
                  "bbbbbb\n", "cc    \n"], [6], false) := by
  refine ⟨by decide, by decide, by decide⟩

/-- C4 counterexample: for the two buffered hash values "abc123"/"abc456" in a
column with configured minimum width 4, width resolution does not set the
width to 4: `__recalculate_sha_width` floors the prefix search at
`max(MIN_SHA_WIDTH, width) = max(7, 4) = 7`, and the spec's prefix rule then
caps at the full value length, giving 6. -/
theorem C4_sha_width_counterexample :
    c4_run.map (fun s => s.field_properties.map (fun fp => fp.width)) =
      Except.ok [6] ∧
    (6 : Nat) ≠ 4 := by
  refine ⟨by decide, by decide⟩

/-- C4 amended: the resolved width equals the spec-modelled minimum unique
prefix length invoked with lower bound `max(MIN_SHA_WIDTH, currentWidth) =
max(7, 4) = 7`; because that bound exceeds the full value length 6, the full
length 6 is used — the lower bound is MIN_SHA_WIDTH-floored, not the plain
configured minimum 4 of the claim. -/
theorem C4_sha_width_resolution :
    c4_run.map (fun s => s.field_properties.map (fun fp => fp.width)) =
      Except.ok [6] ∧
    find_minimum_sha_pfx_len ["abc123", "abc456"] (max MIN_SHA_WIDTH 4) = 6 ∧
    MIN_SHA_WIDTH = 7 := by
  refine ⟨by decide, by decide, by decide⟩

/-- C6: a report whose field selection contains the reserved name "help" does
not print the catalog and enter introspection mode: the constructor calls
`__display_fields`, whose body reads the undefined name `fields`, so
construction aborts with `NameError` and no report object exists. -/
theorem C6_help_mode_raises_nameerror :
    errOf (BoomReport.init test_types_int [field_a, field_b] (some "help")
        (some {}) none none) =
      some (PyErr.nameError "name 'fields' is not defined") := by
  decide

/-- C7: a field-selection token matching no catalog field does abort
construction, but not as claimed: the `except ValueError` handler calls
`__display_fields`, which raises `NameError` on its undefined `fields` name
before the catalog is printed and before the unrecognized-field `ValueError`
can be re-raised, so the propagated error is the `NameError`. -/
theorem C7_unknown_field_raises_nameerror :
    errOf (BoomReport.init test_types_int [field_a, field_b] (some "bogus")
        (some {}) none none) =
      some (PyErr.nameError "name 'fields' is not defined") ∧
    some (PyErr.nameError "name 'fields' is not defined") ≠
      some (PyErr.valueError "No matching field name: bogus") := by
  refine ⟨by decide, by decide⟩

/-- C8: `report_num` hands `str(v)` and `v` to `set_value`, but `set_value`'s
`sort_value if sort_value else report_string` treats the numeric value 0 as
falsy and stores the rendered STRING "0" as the sort value, contradicting the
claim's "for all numeric v including 0" (nonzero values are stored
numerically). -/
theorem C8_report_num_zero_stores_string :
    BoomField.report_num { props_ref := 0 } 0 =
      Except.ok { props_ref := 0, report_string := some "0",
                  sort_value := some (Value.str "0") } ∧
    BoomField.report_num { props_ref := 0 } 5 =
      Except.ok { props_ref := 0, report_string := some "5",
                  sort_value := some (Value.num 5) } ∧
    Value.str "0" ≠ Value.num 0 := by
  refine ⟨by decide, by decide, by decide⟩

/-- C9: declaring the same field as a sort key twice raises no error, but the
duplicate declaration is NOT ignored (despite the "Ignoring duplicate sort
field" log message): with sort keys "a,-a" the single registration's
direction is overwritten to descending, its position to 1, and the report's
key count ends at 2 — against the single run's (1, ascending, 0). -/
theorem C9_duplicate_sort_key_overwrites :
    c9_run_single.map (fun s => (s.keys_count,
        s.field_properties.map (fun fp => (fp.sort_key, fp.sort_dir, fp.sort_posn)))) =
      Except.ok (1, [(true, some SortDir.ascending, some (0 : Nat))]) ∧
    c9_run_dup.map (fun s => (s.keys_count,
        s.field_properties.map (fun fp => (fp.sort_key, fp.sort_dir, fp.sort_posn)))) =
      Except.ok (2, [(true, some SortDir.descending, some (1 : Nat))]) := by
  refine ⟨by decide, by decide⟩

/-- C10: `report_object` with a `None` object raises
`ValueError("Cannot report NoneType object.")` for every report state — in
particular for states whose `_already_reported` flag is set (help/introspection
mode), because the `None` check precedes the already-reported check. -/
theorem C10_report_object_none_raises (ρ : Type) (s : BoomReport ρ) :
    BoomReport.report_object s none =
      Except.error (PyErr.valueError "Cannot report NoneType object.") ∧
    (s.already_reported = true →
      BoomReport.report_object s none =
        Except.error (PyErr.valueError "Cannot report NoneType object.")) := by
  exact ⟨rfl, fun _ => rfl⟩

/-- Witness for C10 at a concrete help-mode report state. -/
theorem C10_report_object_none_raises_witness :
    BoomReport.report_object c10_help_state none =
      Except.error (PyErr.valueError "Cannot report NoneType object.") :=
  (C10_report_object_none_raises Int c10_help_state).2 rfl
